import Mathlib

/-!
Shallow embedding of `src/js/main.js` (portfolio page behavior script) and
verification of its specification claims.

Conventions of the embedding:
* DOM elements are modelled as small structures holding exactly the fields the
  script reads or writes; event handlers become pure state-transition
  functions.
* JS numbers that the script only ever uses as integers (timestamps from
  `Date.now()`, pixel coordinates, scroll offsets, viewport widths) are
  modelled as `Int` (or `Nat` where the quantity is intrinsically
  non-negative, such as `window.innerWidth`).
* Strings (`style.transform` values, `textContent`, hrefs, key names) are
  modelled as Lean `String`s, or as `List Char` where substring structure
  matters.
-/

/-! ### `getBreakpoint` (main.js lines 230-235)

```js
function getBreakpoint() {
    const width = window.innerWidth;
    if (width <= 480) return 'mobile';
    if (width <= 768) return 'tablet';
    return 'desktop';
}
```
-/

def getBreakpoint (width : Nat) : String :=
  if width ≤ 480 then "mobile"
  else if width ≤ 768 then "tablet"
  else "desktop"

/-! ### `setupResponsiveNavigation` scroll handler (main.js lines 48-68)

```js
let lastScrollTop = 0;
window.addEventListener('scroll', function() {
    const scrollTop = window.pageYOffset || document.documentElement.scrollTop;
    if (window.innerWidth <= 768) {
        if (scrollTop > lastScrollTop && scrollTop > 100) {
            header.style.transform = 'translateY(-100%)';
        } else {
            header.style.transform = 'translateY(0)';
        }
    } else {
        header.style.transform = 'translateY(0)';
    }
    lastScrollTop = scrollTop;
});
```
The handler's closure state is `lastScrollTop` together with the header's
current `style.transform`; one scroll event maps a state and the current
scroll offset to the next state.
-/

structure NavState where
  lastScrollTop : Int
  transform : String
deriving Repr, DecidableEq

def headerScrollHandler (innerWidth : Nat) (s : NavState) (scrollTop : Int) : NavState :=
  if innerWidth ≤ 768 then
    if scrollTop > s.lastScrollTop ∧ scrollTop > 100 then
      { lastScrollTop := scrollTop, transform := "translateY(-100%)" }
    else
      { lastScrollTop := scrollTop, transform := "translateY(0)" }
  else
    { lastScrollTop := scrollTop, transform := "translateY(0)" }

/-- Run the scroll handler over a sequence of scroll offsets, recording the
header transform after each event. `lastScrollTop` starts at 0 as in the
source. -/
def headerRun (innerWidth : Nat) (s : NavState) : List Int → List String
  | [] => []
  | o :: os =>
    let s' := headerScrollHandler innerWidth s o
    s'.transform :: headerRun innerWidth s' os

/-! ### `setupProjectCardInteractions` touch handlers (main.js lines 111-139)

```js
let touchStartTime = 0;
let touchStartY = 0;
let isTouchScrolling = false;

card.addEventListener('touchstart', function(e) {
    touchStartTime = Date.now();
    touchStartY = e.touches[0].clientY;
    isTouchScrolling = false;
}, { passive: true });

card.addEventListener('touchmove', function(e) {
    const touchMoveY = e.touches[0].clientY;
    const deltaY = Math.abs(touchMoveY - touchStartY);
    if (deltaY > 10) { isTouchScrolling = true; }
}, { passive: true });

card.addEventListener('touchend', function(e) {
    const touchEndTime = Date.now();
    const touchDuration = touchEndTime - touchStartTime;
    if (!isTouchScrolling && touchDuration < 500) {
        e.preventDefault();
        link.click();
    }
});
```
-/

structure TouchState where
  touchStartTime : Int
  touchStartY : Int
  isTouchScrolling : Bool
deriving Repr, DecidableEq

def touchstartHandler (now y : Int) : TouchState :=
  { touchStartTime := now, touchStartY := y, isTouchScrolling := false }

def touchmoveHandler (s : TouchState) (touchMoveY : Int) : TouchState :=
  if |touchMoveY - s.touchStartY| > 10 then { s with isTouchScrolling := true } else s

/-- Whether the touchend handler classifies the gesture as a tap, i.e. calls
`e.preventDefault()` and `link.click()`. -/
def touchendActivates (s : TouchState) (now : Int) : Bool :=
  !s.isTouchScrolling && decide (now - s.touchStartTime < 500)

lemma foldl_touchmove_start (s : TouchState) (moves : List Int) :
    (moves.foldl touchmoveHandler s).touchStartY = s.touchStartY ∧
    (moves.foldl touchmoveHandler s).touchStartTime = s.touchStartTime := by
  induction moves generalizing s with
  | nil => exact ⟨rfl, rfl⟩
  | cons m ms ih =>
    have h := ih (touchmoveHandler s m)
    simp only [List.foldl_cons]
    refine ⟨h.1.trans ?_, h.2.trans ?_⟩ <;>
      · unfold touchmoveHandler
        split <;> rfl

lemma foldl_touchmove_flag (s : TouchState) (moves : List Int) :
    (moves.foldl touchmoveHandler s).isTouchScrolling =
      (s.isTouchScrolling || moves.any (fun y => decide (|y - s.touchStartY| > 10))) := by
  induction moves generalizing s with
  | nil => simp
  | cons m ms ih =>
    simp only [List.foldl_cons, List.any_cons]
    rw [ih]
    by_cases h : |m - s.touchStartY| > 10
    · simp [touchmoveHandler, h]
    · simp [touchmoveHandler, h]

/-- C1: For a project card, after a touchstart at time `t0`, vertical
position `y0`, any sequence of touchmoves and a touchend at time `t1`:
(1) the link is activated (default prevented and `link.click()` issued) iff
the scrolling flag is false and the elapsed time is strictly under 500 ms;
(2) the scrolling flag is set, and stays set, exactly when some touchmove's
absolute vertical delta from the start position exceeds 10 units;
(3) touchstart resets flag, start time and start position unconditionally. -/
theorem projectCard_touch_spec (t0 t1 y0 : Int) (moves : List Int) :
    (touchendActivates (moves.foldl touchmoveHandler (touchstartHandler t0 y0)) t1 = true
      ↔ ((moves.foldl touchmoveHandler (touchstartHandler t0 y0)).isTouchScrolling = false
          ∧ t1 - t0 < 500))
    ∧ ((moves.foldl touchmoveHandler (touchstartHandler t0 y0)).isTouchScrolling = true
      ↔ ∃ y ∈ moves, |y - y0| > 10)
    ∧ (∀ t y, touchstartHandler t y =
        { touchStartTime := t, touchStartY := y, isTouchScrolling := false }) := by
  have hstart := foldl_touchmove_start (touchstartHandler t0 y0) moves
  have hflag := foldl_touchmove_flag (touchstartHandler t0 y0) moves
  refine ⟨?_, ?_, fun _ _ => rfl⟩
  · unfold touchendActivates
    rw [hstart.2]
    show (!(moves.foldl touchmoveHandler (touchstartHandler t0 y0)).isTouchScrolling &&
        decide (t1 - t0 < 500)) = true ↔ _
    constructor
    · intro h
      have h' := h
      rw [Bool.and_eq_true] at h'
      exact ⟨by simpa using h'.1, by simpa using h'.2⟩
    · intro ⟨h1, h2⟩
      rw [Bool.and_eq_true]
      exact ⟨by simp [h1], by simpa using h2⟩
  · rw [hflag]
    simp [touchstartHandler]

/-- Witness for C1: a quick tap (no moves, 200 ms) activates the link; a
touchmove with vertical delta 30 sets the scrolling flag. -/
theorem projectCard_touch_spec_witness :
    touchendActivates (([] : List Int).foldl touchmoveHandler (touchstartHandler 0 100)) 200
      = true
    ∧ ([(130 : Int)].foldl touchmoveHandler (touchstartHandler 0 100)).isTouchScrolling
      = true :=
  ⟨(projectCard_touch_spec 0 200 100 []).1.mpr ⟨by decide, by decide⟩,
   (projectCard_touch_spec 0 200 100 [130]).2.1.mpr ⟨130, by decide, by decide⟩⟩

/-- C2: For every scroll event: at width ≤ 768 the header is hidden
(`translateY(-100%)`) exactly when the offset strictly increased over the last
recorded offset and strictly exceeds 100, shown (`translateY(0)`) otherwise;
at width > 768 it is always shown; `lastScrollTop` is always updated to the
current offset. The scroll sequence [0, 50, 150, 120] at width 375 produces
transforms shown, shown, hidden, shown — as a sequence of transform changes,
shown, hidden, shown. -/
theorem header_scroll_spec (w : Nat) (s : NavState) (top : Int) :
    (w ≤ 768 →
      (((headerScrollHandler w s top).transform = "translateY(-100%)")
        ↔ (top > s.lastScrollTop ∧ top > 100))
      ∧ (¬(top > s.lastScrollTop ∧ top > 100) →
          (headerScrollHandler w s top).transform = "translateY(0)"))
    ∧ (768 < w → (headerScrollHandler w s top).transform = "translateY(0)")
    ∧ (headerScrollHandler w s top).lastScrollTop = top
    ∧ headerRun 375 ⟨0, "translateY(0)"⟩ [0, 50, 150, 120]
        = ["translateY(0)", "translateY(0)", "translateY(-100%)", "translateY(0)"]
    ∧ (headerRun 375 ⟨0, "translateY(0)"⟩ [0, 50, 150, 120]).destutter (· ≠ ·)
        = ["translateY(0)", "translateY(-100%)", "translateY(0)"] := by
  refine ⟨fun hw => ⟨?_, fun hc => ?_⟩, fun hw => ?_, ?_, by decide, by decide⟩
  · unfold headerScrollHandler
    rw [if_pos hw]
    by_cases hc : top > s.lastScrollTop ∧ top > 100
    · rw [if_pos hc]
      exact iff_of_true rfl hc
    · rw [if_neg hc]
      refine iff_of_false (fun h => ?_) hc
      have hs : ("translateY(0)" : String) = "translateY(-100%)" := h
      exact absurd hs (by decide)
  · unfold headerScrollHandler
    rw [if_pos hw, if_neg hc]
  · unfold headerScrollHandler
    rw [if_neg (by omega)]
  · unfold headerScrollHandler
    split
    · split <;> rfl
    · rfl

/-- Witness for C2 at concrete inputs: at width 375, offset 150 after 50 hides
the header; at width 1024 the same event shows it; `lastScrollTop` becomes
150. -/
theorem header_scroll_spec_witness :
    (headerScrollHandler 375 ⟨50, "translateY(0)"⟩ 150).transform = "translateY(-100%)"
    ∧ (headerScrollHandler 1024 ⟨50, "translateY(0)"⟩ 150).transform = "translateY(0)"
    ∧ (headerScrollHandler 375 ⟨50, "translateY(0)"⟩ 150).lastScrollTop = 150 :=
  ⟨((header_scroll_spec 375 ⟨50, "translateY(0)"⟩ 150).1 (by decide)).1.mpr
      ⟨by decide, by decide⟩,
   (header_scroll_spec 1024 ⟨50, "translateY(0)"⟩ 150).2.1 (by decide),
   (header_scroll_spec 375 ⟨50, "translateY(0)"⟩ 150).2.2.1⟩

/-- C9: The breakpoint classifier returns "mobile" when width ≤ 480,
"tablet" when 480 < width ≤ 768, "desktop" when width > 768. -/
theorem getBreakpoint_spec (w : Nat) :
    (w ≤ 480 → getBreakpoint w = "mobile")
    ∧ (480 < w → w ≤ 768 → getBreakpoint w = "tablet")
    ∧ (768 < w → getBreakpoint w = "desktop") := by
  unfold getBreakpoint
  refine ⟨fun h => by simp [h], fun h1 h2 => ?_, fun h => ?_⟩
  · rw [if_neg (by omega), if_pos h2]
  · rw [if_neg (by omega), if_neg (by omega)]

/-- Witness for C9 at concrete widths. -/
theorem getBreakpoint_spec_witness :
    getBreakpoint 320 = "mobile" ∧ getBreakpoint 600 = "tablet" ∧
    getBreakpoint 1024 = "desktop" :=
  ⟨(getBreakpoint_spec 320).1 (by decide),
   (getBreakpoint_spec 600).2.1 (by decide) (by decide),
   (getBreakpoint_spec 1024).2.2 (by decide)⟩

/-! ### `setupSmoothScrolling` click handler (main.js lines 72-90)

```js
link.addEventListener('click', function(e) {
    const href = link.getAttribute('href');
    if (href === '#') return;
    const target = document.querySelector(href);
    if (target) {
        e.preventDefault();
        target.scrollIntoView({ behavior: 'smooth', block: 'start' });
    }
});
```
The document is modelled by the predicate `querySelector : String → Bool`
telling whether some element matches a selector; a matched scroll target is
identified by the selector that found it.
-/

structure ScrollIntoViewCall where
  target : String
  behavior : String
  block : String
deriving Repr, DecidableEq

structure ClickOutcome where
  preventedDefault : Bool
  scrollCalls : List ScrollIntoViewCall
deriving Repr, DecidableEq

def anchorClickHandler (querySelector : String → Bool) (href : String) : ClickOutcome :=
  if href = "#" then { preventedDefault := false, scrollCalls := [] }
  else if querySelector href then
    { preventedDefault := true
      scrollCalls := [{ target := href, behavior := "smooth", block := "start" }] }
  else { preventedDefault := false, scrollCalls := [] }

/-! ### `setupImageLazyLoading` (main.js lines 24-45)

```js
if ('IntersectionObserver' in window) {
    const imageObserver = new IntersectionObserver(function(entries, observer) {
        entries.forEach(function(entry) {
            if (entry.isIntersecting) {
                const img = entry.target;
                if (img.dataset.src) {
                    img.src = img.dataset.src;
                    img.removeAttribute('data-src');
                    img.classList.remove('lazy');
                    observer.unobserve(img);
                }
            }
        });
    });
    const lazyImages = document.querySelectorAll('img.lazy');
    lazyImages.forEach(function(img) { imageObserver.observe(img); });
}
```
-/

structure LazyImage where
  src : Option String
  dataSrc : Option String
  classes : List String
  observed : Bool
deriving Repr, DecidableEq

/-- One intersection-observer callback entry delivered for an image. -/
def lazyObserverCallback (isIntersecting : Bool) (img : LazyImage) : LazyImage :=
  if isIntersecting then
    match img.dataSrc with
    | some d =>
      { src := some d, dataSrc := none, classes := img.classes.erase "lazy", observed := false }
    | none => img
  else img

/-- Set-up phase: when the observation capability exists, every image matching
`img.lazy` starts being observed; otherwise nothing at all is done to any
image. -/
def setupImageLazyLoading (hasIntersectionObserver : Bool) (imgs : List LazyImage) :
    List LazyImage :=
  if hasIntersectionObserver then
    imgs.map (fun img => if "lazy" ∈ img.classes then { img with observed := true } else img)
  else imgs

/-! ### `setupKeyboardNavigation` grid item keydown handler (main.js lines 154-168)

```js
item.addEventListener('keydown', function(e) {
    if (e.key === 'Enter' || e.key === ' ') {
        e.preventDefault();
        link.click();
    }
    if (e.key === 'ArrowRight' && index < gridItems.length - 1) {
        e.preventDefault();
        gridItems[index + 1].focus();
    } else if (e.key === 'ArrowLeft' && index > 0) {
        e.preventDefault();
        gridItems[index - 1].focus();
    }
});
```
-/

structure GridKeyOutcome where
  clicked : Bool
  focusTarget : Option Nat
  preventedDefault : Bool
deriving Repr, DecidableEq

def gridKeydownHandler (numItems index : Nat) (key : String) : GridKeyOutcome :=
  let o1 : GridKeyOutcome :=
    if key = "Enter" ∨ key = " " then
      { clicked := true, focusTarget := none, preventedDefault := true }
    else
      { clicked := false, focusTarget := none, preventedDefault := false }
  if key = "ArrowRight" ∧ index < numItems - 1 then
    { o1 with focusTarget := some (index + 1), preventedDefault := true }
  else if key = "ArrowLeft" ∧ index > 0 then
    { o1 with focusTarget := some (index - 1), preventedDefault := true }
  else o1

/-- C5: For a link whose href starts with "#": href exactly "#" does
nothing; when an element matching the fragment exists the handler prevents
default and issues exactly one smooth scroll-into-view call (block start)
targeting that element; when none exists it neither prevents default nor
scrolls. -/
theorem smooth_scroll_spec (q : String → Bool) (href : String) :
    (href = "#" → anchorClickHandler q href = ⟨false, []⟩)
    ∧ (href ≠ "#" → q href = true →
        anchorClickHandler q href = ⟨true, [⟨href, "smooth", "start"⟩]⟩)
    ∧ (href ≠ "#" → q href = false → anchorClickHandler q href = ⟨false, []⟩) := by
  unfold anchorClickHandler
  refine ⟨fun h => ?_, fun h hq => ?_, fun h hq => ?_⟩
  · rw [if_pos h]
  · rw [if_neg h, if_pos hq]
  · rw [if_neg h]
    rw [if_neg (by simp [hq])]

/-- Witness for C5 on a concrete two-element document. -/
theorem smooth_scroll_spec_witness :
    anchorClickHandler (fun s => s == "#section-2") "#" = ⟨false, []⟩
    ∧ anchorClickHandler (fun s => s == "#section-2") "#section-2"
        = ⟨true, [⟨"#section-2", "smooth", "start"⟩]⟩
    ∧ anchorClickHandler (fun s => s == "#section-2") "#missing-id" = ⟨false, []⟩ :=
  ⟨(smooth_scroll_spec (fun s => s == "#section-2") "#").1 rfl,
   (smooth_scroll_spec (fun s => s == "#section-2") "#section-2").2.1 (by decide) (by decide),
   (smooth_scroll_spec (fun s => s == "#section-2") "#missing-id").2.2 (by decide) (by decide)⟩

/-- C6: An image carrying the lazy class and a deferred source, reported
intersecting: the deferred source is copied into `src`, the `data-src`
attribute removed, the `lazy` class removed, and the image unobserved.
A non-intersecting entry changes nothing, and without the
IntersectionObserver capability no image is modified at all. -/
theorem lazy_loading_spec (img : LazyImage) (d : String) (h : img.dataSrc = some d)
    (hn : img.classes.Nodup) :
    (lazyObserverCallback true img).src = some d
    ∧ (lazyObserverCallback true img).dataSrc = none
    ∧ "lazy" ∉ (lazyObserverCallback true img).classes
    ∧ (lazyObserverCallback true img).observed = false
    ∧ lazyObserverCallback false img = img
    ∧ (∀ imgs, setupImageLazyLoading false imgs = imgs) := by
  unfold lazyObserverCallback
  rw [if_pos rfl]
  refine ⟨?_, ?_, ?_, ?_, rfl, fun imgs => rfl⟩ <;> rw [h]
  exact hn.not_mem_erase

/-- Witness for C6 on a concrete lazy image. -/
theorem lazy_loading_spec_witness :
    (lazyObserverCallback true ⟨none, some "hero.jpg", ["lazy"], true⟩).src = some "hero.jpg"
    ∧ "lazy" ∉ (lazyObserverCallback true ⟨none, some "hero.jpg", ["lazy"], true⟩).classes :=
  ⟨(lazy_loading_spec ⟨none, some "hero.jpg", ["lazy"], true⟩ "hero.jpg" rfl (by decide)).1,
   (lazy_loading_spec ⟨none, some "hero.jpg", ["lazy"], true⟩ "hero.jpg" rfl (by decide)).2.2.1⟩

/-- C7: On a grid item at position `index` of `n` (link present, handler
installed): ArrowRight when not last prevents default and focuses item
`index + 1`; ArrowRight on the last item changes nothing; ArrowLeft when not
first prevents default and focuses item `index - 1`; ArrowLeft on the first
item changes nothing. -/
theorem grid_arrow_spec (n index : Nat) (hi : index < n) :
    (index < n - 1 →
      gridKeydownHandler n index "ArrowRight"
        = { clicked := false, focusTarget := some (index + 1), preventedDefault := true })
    ∧ (index = n - 1 →
      gridKeydownHandler n index "ArrowRight"
        = { clicked := false, focusTarget := none, preventedDefault := false })
    ∧ (0 < index →
      gridKeydownHandler n index "ArrowLeft"
        = { clicked := false, focusTarget := some (index - 1), preventedDefault := true })
    ∧ (index = 0 →
      gridKeydownHandler n index "ArrowLeft"
        = { clicked := false, focusTarget := none, preventedDefault := false }) := by
  refine ⟨fun h => ?_, fun h => ?_, fun h => ?_, fun h => ?_⟩
  · simp [gridKeydownHandler, h]
  · simp [gridKeydownHandler, h]
  · simp [gridKeydownHandler, h]
  · simp [gridKeydownHandler, h]

/-- Witness for C7 with 5 grid items: ArrowRight on the 2nd (index 1) focuses
the 3rd (index 2); ArrowRight on the last (index 4) is a no-op. -/
theorem grid_arrow_spec_witness :
    gridKeydownHandler 5 1 "ArrowRight"
      = { clicked := false, focusTarget := some 2, preventedDefault := true }
    ∧ gridKeydownHandler 5 4 "ArrowRight"
      = { clicked := false, focusTarget := none, preventedDefault := false } :=
  ⟨(grid_arrow_spec 5 1 (by decide)).1 (by decide),
   (grid_arrow_spec 5 4 (by decide)).2.1 (by decide)⟩

/-! ### `setupErrorHandling`, link part (main.js lines 213-224)

```js
const resumeLinks = document.querySelectorAll('a[href*=".pdf"]');
resumeLinks.forEach(function(link) {
    link.addEventListener('click', function(e) {
        const originalText = this.textContent;
        this.textContent = 'Loading...';
        setTimeout(() => { this.textContent = originalText; }, 1000);
    });
});
```
The CSS attribute selector `[href*=".pdf"]` matches when the attribute value
contains the given string as a contiguous substring, anywhere in the value.
Hrefs are `List Char` so that substring structure is first-class.
-/

/-- CSS `[attr*=sub]` selector semantics: the attribute value contains `sub`
as a contiguous substring. -/
def cssAttrContainsSelector (sub val : List Char) : Bool :=
  decide (sub <:+: val)

/-- The hrefs, out of a document's link hrefs, that receive the
loading-indicator click handler: those matched by `a[href*=".pdf"]`. -/
def pdfHandlerLinks (hrefs : List (List Char)) : List (List Char) :=
  hrefs.filter (fun href => cssAttrContainsSelector ".pdf".toList href)

/-- Claim-side selection criterion, following the spec text "whose target
path ends in .pdf": the href ends with ".pdf". -/
def specPathEndsWithPdf (href : List Char) : Bool :=
  decide (".pdf".toList <:+ href)

/-! ### `setupErrorHandling`, image part (main.js lines 186-210)

```js
img.addEventListener('error', function() {
    this.style.display = 'none';
    const placeholder = document.createElement('div');
    placeholder.className = 'image-placeholder';
    placeholder.style.cssText = `...`;   // fixed cosmetic styling
    placeholder.textContent = 'Image Unavailable';
    this.parentNode.insertBefore(placeholder, this);
});
```
The fixed `cssText` styling block is cosmetic and carried as-is by every
placeholder; the model records the class and text of each node inserted
before the image, in document order (a new node lands immediately before the
image, i.e. at the end of the list).
-/

structure PlaceholderNode where
  className : String
  textContent : String
deriving Repr, DecidableEq

structure ImgErrorState where
  displayNone : Bool
  nodesBefore : List PlaceholderNode
deriving Repr, DecidableEq

/-- One delivery of the `error` event to the image. -/
def imgErrorHandler (s : ImgErrorState) : ImgErrorState :=
  { displayNone := true
    nodesBefore := s.nodesBefore ++ [⟨"image-placeholder", "Image Unavailable"⟩] }

lemma imgErrorHandler_iterate_length (n : Nat) (s : ImgErrorState) :
    (imgErrorHandler^[n] s).nodesBefore.length = s.nodesBefore.length + n := by
  induction n with
  | zero => rfl
  | succ k ih =>
    rw [Function.iterate_succ_apply', imgErrorHandler]
    simp only [List.length_append, List.length_singleton, ih]
    omega

/-- Counterexample to C3 as stated: the href "main.pdf.html" contains ".pdf"
only in the middle, not as a suffix, yet the link receives the
loading-indicator handler. -/
theorem pdf_links_counterexample :
    "main.pdf.html".toList ∈ pdfHandlerLinks ["main.pdf.html".toList]
    ∧ specPathEndsWithPdf "main.pdf.html".toList = false := by
  constructor
  · simp only [pdfHandlerLinks, cssAttrContainsSelector, List.mem_filter]
    exact ⟨by simp, by decide⟩
  · decide

/-- C3 (amended): the loading-indicator behavior is attached to a link if and
only if its href contains ".pdf" as a contiguous substring anywhere in the
value — not only as a suffix of the path. -/
theorem pdf_links_spec (hrefs : List (List Char)) (href : List Char) :
    href ∈ pdfHandlerLinks hrefs ↔ href ∈ hrefs ∧ ".pdf".toList <:+: href := by
  simp [pdfHandlerLinks, cssAttrContainsSelector, List.mem_filter]

/-- Witness for C3 (amended) on a concrete href list. -/
theorem pdf_links_spec_witness :
    "resume.pdf".toList ∈ pdfHandlerLinks ["resume.pdf".toList, "about.html".toList] :=
  (pdf_links_spec ["resume.pdf".toList, "about.html".toList] "resume.pdf".toList).mpr
    ⟨by simp, by decide⟩

/-- Counterexample to C4 as stated: two load-error events delivered to the
same image insert two placeholder nodes, not at most one. -/
theorem img_error_counterexample :
    (imgErrorHandler (imgErrorHandler ⟨false, []⟩)).nodesBefore.length = 2
    ∧ ¬ (imgErrorHandler (imgErrorHandler ⟨false, []⟩)).nodesBefore.length ≤ 1 := by
  constructor
  · rfl
  · decide

/-- C4 (amended): every load-error event delivered to an image hides the
image and inserts exactly one placeholder node, with class
"image-placeholder" and text "Image Unavailable", immediately before it; so
a single error event on a fresh image yields exactly one placeholder, and n
error events yield n placeholders (the handler is never detached and keeps
no guard). -/
theorem img_error_spec (s : ImgErrorState) (n : Nat) :
    (imgErrorHandler s).displayNone = true
    ∧ (imgErrorHandler s).nodesBefore
        = s.nodesBefore ++ [⟨"image-placeholder", "Image Unavailable"⟩]
    ∧ (imgErrorHandler ⟨false, []⟩).nodesBefore = [⟨"image-placeholder", "Image Unavailable"⟩]
    ∧ (imgErrorHandler^[n] ⟨false, []⟩).nodesBefore.length = n := by
  refine ⟨rfl, rfl, rfl, ?_⟩
  rw [imgErrorHandler_iterate_length]
  simp

/-! ### `initializePortfolio` and graceful degradation (main.js lines 13-21,
49-50, 97-98, 149-150, 175-178)

Each set-up routine queries the document for its own elements and silently
returns (or skips the element) when they are absent. The document snapshot
is modelled by `PageDom`; each `...Init` function returns, in an error monad
where a JS `TypeError` (null dereference) would be `.error`, the list of
event-handler wirings it installed. Cards and grid items are represented by
their optional contained link (`none` = no `.project-link` / `.grid-link`
inside).
-/

structure PageDom where
  header : Option Unit
  projectCards : List (Option Unit)
  gridItems : List (Option Unit)
  backLink : Option Unit
  anchorHrefs : List String
  imageCount : Nat
  linkHrefs : List (List Char)
  hasIntersectionObserver : Bool
deriving Repr

def setupImageLazyLoadingInit (dom : PageDom) : Except String (List String) :=
  .ok (if dom.hasIntersectionObserver then ["lazy-image-observer"] else [])

def setupResponsiveNavigationInit (dom : PageDom) : Except String (List String) :=
  .ok (match dom.header with
       | none => []
       | some _ => ["header-scroll-handler"])

def setupSmoothScrollingInit (dom : PageDom) : Except String (List String) :=
  .ok (dom.anchorHrefs.map (fun _ => "anchor-click-handler"))

def setupProjectCardInteractionsInit (dom : PageDom) : Except String (List String) :=
  .ok ((dom.projectCards.filter (fun c => c.isSome)).map (fun _ => "project-card-handlers"))

def setupKeyboardNavigationInit (dom : PageDom) : Except String (List String) :=
  .ok (((dom.gridItems.filter (fun g => g.isSome)).map (fun _ => "grid-item-handlers"))
       ++ ["escape-keydown-listener"])

def setupErrorHandlingInit (dom : PageDom) : Except String (List String) :=
  .ok ((List.replicate dom.imageCount "img-error-handler")
       ++ (pdfHandlerLinks dom.linkHrefs).map (fun _ => "pdf-loading-handler"))

def initializePortfolio (dom : PageDom) : Except String (List String) := do
  let a ← setupImageLazyLoadingInit dom
  let b ← setupResponsiveNavigationInit dom
  let c ← setupSmoothScrollingInit dom
  let d ← setupProjectCardInteractionsInit dom
  let e ← setupKeyboardNavigationInit dom
  let f ← setupErrorHandlingInit dom
  return a ++ b ++ c ++ d ++ e ++ f

def installedBehaviors (dom : PageDom) : List String :=
  match initializePortfolio dom with
  | .ok l => l
  | .error _ => []

/-- Document-level Escape keydown handler (main.js lines 173-180): clicks the
back link when present, does nothing when absent, never errors. Returns
whether a back-link click was issued. -/
def escapeKeydownHandler (backLink : Option Unit) (key : String) : Except String Bool :=
  if key = "Escape" then
    match backLink with
    | some _ => .ok true
    | none => .ok false
  else .ok false

lemma installedBehaviors_eq (dom : PageDom) :
    installedBehaviors dom =
      (if dom.hasIntersectionObserver then ["lazy-image-observer"] else [])
      ++ (match dom.header with
          | none => []
          | some _ => ["header-scroll-handler"])
      ++ dom.anchorHrefs.map (fun _ => "anchor-click-handler")
      ++ (dom.projectCards.filter (fun c => c.isSome)).map (fun _ => "project-card-handlers")
      ++ (((dom.gridItems.filter (fun g => g.isSome)).map (fun _ => "grid-item-handlers"))
          ++ ["escape-keydown-listener"])
      ++ ((List.replicate dom.imageCount "img-error-handler")
          ++ (pdfHandlerLinks dom.linkHrefs).map (fun _ => "pdf-loading-handler")) := rfl

/-- C8: For every document snapshot, in particular every combination of
absent optional elements: initialization of all six behaviors succeeds
(never an error), the Escape handler never errors and silently does nothing
without a back link, the responsive-navigation set-up silently skips itself
without a header, the Escape listener is always installed, and the header
scroll handler is installed exactly when a header exists and the card
handlers exactly when some card contains a link — each independent of every
other element's presence. -/
theorem graceful_init_spec (dom : PageDom) :
    (∃ l, initializePortfolio dom = .ok l)
    ∧ (∀ bl k, ∃ b, escapeKeydownHandler bl k = .ok b)
    ∧ escapeKeydownHandler none "Escape" = .ok false
    ∧ (dom.header = none → setupResponsiveNavigationInit dom = .ok [])
    ∧ "escape-keydown-listener" ∈ installedBehaviors dom
    ∧ (dom.header.isSome = true ↔ "header-scroll-handler" ∈ installedBehaviors dom)
    ∧ ((∃ c ∈ dom.projectCards, c.isSome = true)
        ↔ "project-card-handlers" ∈ installedBehaviors dom) := by
  refine ⟨⟨_, rfl⟩, ?_, rfl, ?_, ?_, ?_, ?_⟩
  · intro bl k
    unfold escapeKeydownHandler
    by_cases hk : k = "Escape"
    · rw [if_pos hk]
      cases bl
      · exact ⟨false, rfl⟩
      · exact ⟨true, rfl⟩
    · rw [if_neg hk]
      exact ⟨false, rfl⟩
  · intro hh
    unfold setupResponsiveNavigationInit
    rw [hh]
  · rw [installedBehaviors_eq]
    simp
  · rw [installedBehaviors_eq]
    cases dom.header <;> simp
  · rw [installedBehaviors_eq]
    cases dom.header <;> simp [List.mem_filter, Option.isSome_iff_ne_none]

/-- Witness for C8 on a concrete document missing its header and back link,
where one of two cards lacks its link: initialization succeeds, the
navigation set-up skips itself, and the Escape listener is still installed. -/
theorem graceful_init_spec_witness :
    (∃ l, initializePortfolio
        ⟨none, [some (), none], [some ()], none, ["#top"], 2, [], false⟩ = .ok l)
    ∧ setupResponsiveNavigationInit
        ⟨none, [some (), none], [some ()], none, ["#top"], 2, [], false⟩ = .ok []
    ∧ "escape-keydown-listener" ∈ installedBehaviors
        ⟨none, [some (), none], [some ()], none, ["#top"], 2, [], false⟩ :=
  ⟨(graceful_init_spec ⟨none, [some (), none], [some ()], none, ["#top"], 2, [], false⟩).1,
   (graceful_init_spec
      ⟨none, [some (), none], [some ()], none, ["#top"], 2, [], false⟩).2.2.2.1 rfl,
   (graceful_init_spec ⟨none, [some (), none], [some ()], none, ["#top"], 2, [], false⟩).2.2.2.2.1⟩

/-! ### The PDF-link loading indicator race (main.js lines 214-223)

Each click captures the link's current `textContent`, sets it to
"Loading...", and schedules a one-shot uncancelled timer that writes the
captured text back 1000 ms later. State of one link: its visible text and
the pending timers (fire time, captured text to restore). The event loop
fires due timers in ascending fire-time order.
-/

structure PdfLinkState where
  textContent : String
  timers : List (Int × String)
deriving Repr, DecidableEq

def pdfClickHandler (now : Int) (s : PdfLinkState) : PdfLinkState :=
  { textContent := "Loading..."
    timers := s.timers ++ [(now + 1000, s.textContent)] }

/-- A timer firing: the scheduled arrow function writes back the text it
captured at click time. -/
def timerFire (captured : String) (s : PdfLinkState) : PdfLinkState :=
  { s with textContent := captured }

/-- Fire every pending timer, in ascending fire-time order. -/
def fireAllTimers (s : PdfLinkState) : PdfLinkState :=
  (List.insertionSort (fun a b => a.1 ≤ b.1) s.timers).foldl
    (fun st t => timerFire t.2 st) s

/-- Counterexample to the C10 phrase "the original label is never restored":
after a double click at t=0 and t=400, the earliest pending timer (due at
t=1000) restores the original label — it is visible between the two timer
firings. -/
theorem pdf_double_click_counterexample :
    ((pdfClickHandler 400 (pdfClickHandler 0 ⟨"My Resume", []⟩)).timers.headD (0, "")).1
      = 1000
    ∧ (timerFire
        ((pdfClickHandler 400 (pdfClickHandler 0 ⟨"My Resume", []⟩)).timers.headD (0, "")).2
        (pdfClickHandler 400 (pdfClickHandler 0 ⟨"My Resume", []⟩))).textContent
      = "My Resume" :=
  ⟨rfl, rfl⟩

/-- C10 (amended): when a ".pdf" link is clicked at `t1` and again at
`t2` before the first restoration timer fires, the second handler captures
"Loading..." as the text to restore; the first timer transiently restores
the original label, but after both timers have fired the visible text is
"Loading..." and the original label is not restored in the final state. -/
theorem pdf_double_click_race_spec (orig : String) (t1 t2 : Int)
    (horder : t1 < t2) (hrace : t2 < t1 + 1000) (horig : orig ≠ "Loading...") :
    (pdfClickHandler t2 (pdfClickHandler t1 ⟨orig, []⟩)).timers
        = [(t1 + 1000, orig), (t2 + 1000, "Loading...")]
    ∧ (timerFire orig (pdfClickHandler t2 (pdfClickHandler t1 ⟨orig, []⟩))).textContent = orig
    ∧ (fireAllTimers (pdfClickHandler t2 (pdfClickHandler t1 ⟨orig, []⟩))).textContent
        = "Loading..."
    ∧ (fireAllTimers (pdfClickHandler t2 (pdfClickHandler t1 ⟨orig, []⟩))).textContent
        ≠ orig := by
  have hle : t1 + 1000 ≤ t2 + 1000 := by omega
  have hfinal :
      (fireAllTimers (pdfClickHandler t2 (pdfClickHandler t1 ⟨orig, []⟩))).textContent
        = "Loading..." := by
    unfold fireAllTimers pdfClickHandler
    simp [List.insertionSort, List.orderedInsert, hle, timerFire]
  exact ⟨rfl, rfl, hfinal, fun hc => horig ((hc.symm.trans hfinal))⟩

/-- Witness for C10 (amended) at a concrete double click (t=0 and t=400 on a
link labelled "Resume (PDF)"). -/
theorem pdf_double_click_race_spec_witness :
    (fireAllTimers (pdfClickHandler 400 (pdfClickHandler 0 ⟨"Resume (PDF)", []⟩))).textContent
      = "Loading..." :=
  (pdf_double_click_race_spec "Resume (PDF)" 0 400 (by decide) (by decide)
    (by decide)).2.2.1
